import Mathlib

/-!
Shallow embedding of `src/app.py` (stockaimscreener-design/stock-api-render):
a Flask service exposing `GET /quote`, `POST /quote` and a health probe,
backed by a per-symbol yfinance lookup (`fetch_stock_data`) and a batched
collector (`process_symbols`).

Modelling conventions:
* the upstream provider (`yf.Ticker(symbol).info`) is a parameter
  `Provider : Symbol → Except String Info`: `.error` models any exception
  raised while constructing the ticker or reading `.info`, `.ok info`
  models the loosely-typed field bag, with `Option` for missing keys;
* Python numbers are modelled as `ℚ`; Python truthiness of an optional
  number (`None`/`0` falsy) is `pyTruthyQ`, of an optional string is
  `pyTruthyS`; `a or b` is `pyOrQ` / `pyOrS`;
* `round(x, n)` is ideal decimal rounding half-to-even (`pyRound`);
* a Python `dict` result of `fetch_stock_data` is a `QuoteRecord`,
  and the Python `None` returned on failure is `Option.none`, so the
  per-symbol outcome type is `Option QuoteRecord`.
-/

namespace StockApi

/-- A ticker symbol as handled by the app (plain Python string). -/
abbrev Symbol := String

/-- The provider field bag `yf.Ticker(symbol).info`, restricted to the keys
that `fetch_stock_data` (src/app.py:17-55) actually reads.  Every field is
optional: `info.get(k)` yields `None` for a missing key.  The Python key
`'open'` is a Lean keyword, hence the field name `open_`. -/
structure Info where
  currentPrice : Option ℚ := none
  regularMarketPrice : Option ℚ := none
  volume : Option ℚ := none
  regularMarketVolume : Option ℚ := none
  averageDailyVolume10Day : Option ℚ := none
  previousClose : Option ℚ := none
  regularMarketPreviousClose : Option ℚ := none
  longName : Option String := none
  shortName : Option String := none
  open_ : Option ℚ := none
  regularMarketOpen : Option ℚ := none
  dayHigh : Option ℚ := none
  regularMarketDayHigh : Option ℚ := none
  dayLow : Option ℚ := none
  regularMarketDayLow : Option ℚ := none
  marketCap : Option ℚ := none
  floatShares : Option ℚ := none
  trailingPE : Option ℚ := none
  forwardPE : Option ℚ := none
  dividendYield : Option ℚ := none
  fiftyTwoWeekHigh : Option ℚ := none
  fiftyTwoWeekLow : Option ℚ := none
  sector : Option String := none
  industry : Option String := none
  country : Option String := none
deriving DecidableEq

/-- The upstream single-symbol lookup capability: `yf.Ticker(s).info`,
either raising (`.error` with the exception text) or returning the bag. -/
abbrev Provider := Symbol → Except String Info

/-- Python truthiness of an optional number: `None` and `0` are falsy. -/
def pyTruthyQ (a : Option ℚ) : Bool :=
  match a with
  | none => false
  | some q => decide (q ≠ 0)

/-- Python truthiness of an optional string: `None` and `""` are falsy. -/
def pyTruthyS (a : Option String) : Bool :=
  match a with
  | none => false
  | some s => decide (s ≠ "")

/-- Python `a or b` on optional numbers: `a` if truthy, else `b` as-is. -/
def pyOrQ (a b : Option ℚ) : Option ℚ :=
  if pyTruthyQ a then a else b

/-- Python `a or b` on optional strings: `a` if truthy, else `b` as-is. -/
def pyOrS (a b : Option String) : Option String :=
  if pyTruthyS a then a else b

/-- Round to the nearest integer, ties to even (Python `round` semantics,
idealised over ℚ). -/
def roundHalfEven (x : ℚ) : ℤ :=
  let n := ⌊x⌋
  let r := x - (n : ℚ)
  if r < 1 / 2 then n
  else if 1 / 2 < r then n + 1
  else if n % 2 = 0 then n else n + 1

/-- Python `round(x, n)` (idealised decimal half-to-even over ℚ). -/
def pyRound (x : ℚ) (n : ℕ) : ℚ :=
  (roundHalfEven (x * 10 ^ n) : ℚ) / 10 ^ n

/-- The dict built by `fetch_stock_data` on success (src/app.py:35-56).
Field names follow the dict keys; `'open'` is the Lean keyword, hence
`open_`; `'pe_ratio'` / `'forward_pe'` keep the provider-side spelling
`trailingPE` / `forwardPE`. -/
structure QuoteRecord where
  symbol : String
  name : Option String
  price : Option ℚ
  open_ : Option ℚ
  high : Option ℚ
  low : Option ℚ
  volume : Option ℚ
  avg_volume : Option ℚ
  change_percent : Option ℚ
  market_cap : Option ℚ
  shares_float : Option ℚ
  relative_volume : Option ℚ
  trailingPE : Option ℚ
  forwardPE : Option ℚ
  dividend_yield : Option ℚ
  fifty_two_week_high : Option ℚ
  fifty_two_week_low : Option ℚ
  sector : Option String
  industry : Option String
  country : Option String
deriving DecidableEq

/-- `fetch_stock_data` (src/app.py:12-60).  One upstream lookup, `or`-based
primary/secondary fallbacks, derived `change_percent` / `relative_volume`
under truthiness guards, `None` (here `none`) on a non-truthy price and on
any exception.  The `.getD 0` extractions are guarded by the surrounding
truthiness tests, which guarantee the operand is `some` of a non-zero
value, exactly as the Python guards do. -/
def fetch_stock_data (provider : Provider) (symbol : Symbol) : Option QuoteRecord :=
  match provider symbol with
  | Except.error _ => none
  | Except.ok info =>
    let price := pyOrQ info.currentPrice info.regularMarketPrice
    if !(pyTruthyQ price) then none
    else
      let volume := pyOrQ info.volume info.regularMarketVolume
      let avg_volume := info.averageDailyVolume10Day
      let prev_close := pyOrQ info.previousClose info.regularMarketPreviousClose
      let change_percent : Option ℚ :=
        if pyTruthyQ price && pyTruthyQ prev_close && !(prev_close == some 0)
        then some (pyRound ((price.getD 0 - prev_close.getD 0) / prev_close.getD 0 * 100) 4)
        else none
      let relative_volume : Option ℚ :=
        if pyTruthyQ volume && pyTruthyQ avg_volume && !(avg_volume == some 0)
        then some (pyRound (volume.getD 0 / avg_volume.getD 0) 2)
        else none
      some
        { symbol := symbol
          name := pyOrS info.longName info.shortName
          price := price
          open_ := pyOrQ info.open_ info.regularMarketOpen
          high := pyOrQ info.dayHigh info.regularMarketDayHigh
          low := pyOrQ info.dayLow info.regularMarketDayLow
          volume := volume
          avg_volume := avg_volume
          change_percent := change_percent
          market_cap := info.marketCap
          shares_float := info.floatShares
          relative_volume := relative_volume
          trailingPE := info.trailingPE
          forwardPE := info.forwardPE
          dividend_yield := info.dividendYield
          fifty_two_week_high := info.fiftyTwoWeekHigh
          fifty_two_week_low := info.fiftyTwoWeekLow
          sector := info.sector
          industry := info.industry
          country := info.country }

/-- Number of iterations of Python `range(0, len, bs)` for `bs ≥ 1`. -/
def py_range_count (len bs : ℕ) : ℕ := (len + bs - 1) / bs

/-- `process_symbols` (src/app.py:65-73), intended-collection reading:
the loop `for i in range(0, len(symbols), batch_size)` takes the slice
`symbols[i : i + batch_size]`, applies `fetch_stock_data` to each element,
and `results.extend(...)` concatenates the per-batch lists in order.
CAUTION — this definition models `await asyncio.gather(*tasks)` as
returning the already-computed values of `tasks`; the real call raises
`TypeError` for every non-empty batch, so at runtime this list is only
ever materialised for an *empty* input (where it is `[]` and no `gather`
call happens).  The runtime-exact behaviour, error path included, is
`process_symbols_runtime`; this definition serves to express the intended
aggregation and the handlers' empty-input behaviour. -/
def process_symbols (provider : Provider) (symbols : List Symbol)
    (batch_size : ℕ) : List (Option QuoteRecord) :=
  ((List.range (py_range_count symbols.length batch_size)).map
    (fun j => ((symbols.drop (j * batch_size)).take batch_size).map
      (fetch_stock_data provider))).flatten

/-- The `tasks` list built by the comprehension on src/app.py:70 for the
`j`-th batch: `fetch_stock_data` is a plain synchronous function, so the
comprehension calls it eagerly, once per element of the batch slice
`symbols[j*batch_size : (j+1)*batch_size]`, *before* `asyncio.gather` is
invoked on the results. -/
def batch_tasks (provider : Provider) (symbols : List Symbol)
    (batch_size j : ℕ) : List (Option QuoteRecord) :=
  ((symbols.drop (j * batch_size)).take batch_size).map (fetch_stock_data provider)

/-- Error message of `asyncio.ensure_future` when handed a plain value. -/
def gather_type_error_msg : String :=
  "An asyncio.Future, a coroutine or an awaitable is required"

/-- Argument check of `asyncio.gather` as reached by src/app.py:70-71.
`gather` wraps each positional argument with `ensure_future`, which raises
`TypeError` for anything that is not a future, coroutine or awaitable.
`fetch_stock_data` (line 12) is a plain `def`, so the comprehension on
line 70 has already called it and `tasks` holds dicts / `None` — never
awaitables.  Hence `gather(*tasks)` raises for every non-empty `tasks`,
while `gather()` of zero arguments resolves to `[]`. -/
def asyncio_gather (tasks : List (Option QuoteRecord)) :
    Except String (List (Option QuoteRecord)) :=
  match tasks with
  | [] => Except.ok []
  | _ :: _ => Except.error gather_type_error_msg

/-- One iteration of the `process_symbols` loop at runtime fidelity: if a
previous iteration already raised, the exception is simply propagating
(`.error` absorbs); otherwise the batch's eagerly computed `tasks` go
through `asyncio_gather`'s argument check, and only an `ok` result is
appended by `results.extend`. -/
def gather_step (provider : Provider) (symbols : List Symbol) (batch_size : ℕ)
    (acc : Except String (List (Option QuoteRecord))) (j : ℕ) :
    Except String (List (Option QuoteRecord)) :=
  match acc with
  | Except.error e => Except.error e
  | Except.ok rs =>
    match asyncio_gather (batch_tasks provider symbols batch_size j) with
    | Except.error e => Except.error e
    | Except.ok batch => Except.ok (rs ++ batch)

/-- `process_symbols` (src/app.py:65-73) at runtime fidelity: each batch is
passed through `asyncio_gather`'s argument check; a raised `TypeError`
propagates out of the loop (there is no try/except in `process_symbols`),
so later batches never execute after the first raise. -/
def process_symbols_runtime (provider : Provider) (symbols : List Symbol)
    (batch_size : ℕ) : Except String (List (Option QuoteRecord)) :=
  (List.range (py_range_count symbols.length batch_size)).foldl
    (gather_step provider symbols batch_size) (Except.ok [])

/-- Characters stripped by Python `str.strip()` (ASCII whitespace). -/
def is_py_space (c : Char) : Bool :=
  c == ' ' || c == '\t' || c == '\n' || c == '\r' || c == '\x0b' || c == '\x0c'

/-- Python `s.strip()`. -/
def pyStrip (s : String) : String :=
  String.mk (((s.data.dropWhile is_py_space).reverse.dropWhile is_py_space).reverse)

/-- Python `s.upper()` (ASCII). -/
def pyUpper (s : String) : String :=
  String.mk (s.data.map Char.toUpper)

/-- Worker for `py_split_commas`: accumulates the current field (reversed)
and emits it at each comma and at the end of input. -/
def py_split_commas_aux : List Char → List Char → List String
  | [], acc => [String.mk acc.reverse]
  | c :: rest, acc =>
    if c == ',' then String.mk acc.reverse :: py_split_commas_aux rest []
    else py_split_commas_aux rest (c :: acc)

/-- Python `s.split(",")`: split at every comma, keeping empty fields
(`"".split(",") == [""]`). -/
def py_split_commas (s : String) : List String :=
  py_split_commas_aux s.data []

/-- The JSON values that can sit under the `"symbols"` key of a POST body,
as far as the claims exercise them: strings and (possibly nested) lists.
Iterating a Python string yields its characters as 1-character strings. -/
inductive PyVal where
  | str (s : String)
  | list (xs : List PyVal)

/-- Python iteration over a value of `PyVal` shape: a string yields its
characters as 1-character strings, a list yields its elements. -/
def pyIter : PyVal → List PyVal
  | PyVal.str s => s.data.map (fun c => PyVal.str (String.mk [c]))
  | PyVal.list xs => xs

/-- A JSON object body, as an association list (Python dict). -/
abbrev PyDict := List (String × PyVal)

/-- Python `d[k]` / `k in d` lookup on a dict. -/
def dict_get (d : PyDict) (k : String) : Option PyVal :=
  (d.find? (fun p => p.1 == k)).map (fun p => p.2)

/-- The GET normalization (src/app.py:85):
`[s.strip().upper() for s in symbols.split(",") if s.strip()]`. -/
def normalize_symbols_get (param : String) : List Symbol :=
  ((py_split_commas param).filter (fun s => !(pyStrip s == ""))).map
    (fun s => pyUpper (pyStrip s))

/-- One element of the POST comprehension (src/app.py:104): kept and
normalized when it is a string with a truthy strip, dropped otherwise
(`isinstance(s, str) and s.strip()`). -/
def post_step : PyVal → Option Symbol
  | PyVal.str s => if pyStrip s == "" then none else some (pyUpper (pyStrip s))
  | PyVal.list _ => none

/-- The POST normalization (src/app.py:104):
`[s.strip().upper() for s in data["symbols"] if isinstance(s, str) and s.strip()]`. -/
def normalize_symbols_post (v : PyVal) : List Symbol :=
  (pyIter v).filterMap post_step

/-- Body of an HTTP response: either the 400 error object or the 200
success object `{"status": "success", "count": ..., "data": ...}`
(src/app.py:83, 88-92, 102, 107-111). -/
inductive JsonBody where
  | err (msg : String)
  | quotes (count : ℕ) (data : List (Option QuoteRecord))
deriving DecidableEq

/-- An HTTP response: status code plus JSON body. -/
structure HttpResponse where
  status_code : ℕ
  body : JsonBody
deriving DecidableEq

/-- `quote_get` (src/app.py:79-92), intended-collection reading.
`request.args.get("symbols", "")` yields `""` when the parameter is
missing, so a missing parameter and an empty one coincide; `if not
symbols` tests for the empty string.  The success branch serialises
`len(results)` as `count` and the raw results (dicts or `None`) as
`data`.  CAUTION — because of `process_symbols`' gather slip the
200-with-data branch is reachable at runtime only when the normalized
list is empty; for a non-empty list the real handler propagates the
`TypeError` (see `quote_get_runtime`). -/
def quote_get (provider : Provider) (symbolsParam : String) : HttpResponse :=
  if symbolsParam == "" then ⟨400, JsonBody.err "symbols query param missing"⟩
  else
    ⟨200, JsonBody.quotes
      (process_symbols provider (normalize_symbols_get symbolsParam) 100).length
      (process_symbols provider (normalize_symbols_get symbolsParam) 100)⟩

/-- `quote_post` (src/app.py:98-111), intended-collection reading.
`get_json(silent=True)` yields `None` for a missing/invalid body (`none`
here); `if not data` also rejects an empty dict; `"symbols" not in data`
rejects a body without the key.  Otherwise the value under `"symbols"` is
normalized and processed.  (The Python error text contains quotes around
symbols; elided here.)  CAUTION — as with `quote_get`, the 200-with-data
branch is reachable at runtime only when the normalized list is empty;
see `quote_post_runtime`. -/
def quote_post (provider : Provider) (body : Option PyDict) : HttpResponse :=
  match body with
  | none => ⟨400, JsonBody.err "JSON body must include a symbols list"⟩
  | some d =>
    if d.isEmpty then ⟨400, JsonBody.err "JSON body must include a symbols list"⟩
    else
      match dict_get d "symbols" with
      | none => ⟨400, JsonBody.err "JSON body must include a symbols list"⟩
      | some v =>
        ⟨200, JsonBody.quotes
          (process_symbols provider (normalize_symbols_post v) 100).length
          (process_symbols provider (normalize_symbols_post v) 100)⟩

/-- `quote_get` (src/app.py:79-92) at runtime fidelity: the view either
returns a response (`.ok`) or lets an unhandled exception escape
(`.error`, which Flask surfaces as a 500 Internal Server Error).  There
is no try/except in the handler, so the `TypeError` raised by
`asyncio.gather` for a non-empty normalized list propagates. -/
def quote_get_runtime (provider : Provider) (symbolsParam : String) :
    Except String HttpResponse :=
  if symbolsParam == "" then
    Except.ok ⟨400, JsonBody.err "symbols query param missing"⟩
  else
    match process_symbols_runtime provider (normalize_symbols_get symbolsParam) 100 with
    | Except.error e => Except.error e
    | Except.ok results => Except.ok ⟨200, JsonBody.quotes results.length results⟩

/-- `quote_post` (src/app.py:98-111) at runtime fidelity: as with
`quote_get_runtime`, an exception raised below the handler escapes as
`.error` (500). -/
def quote_post_runtime (provider : Provider) (body : Option PyDict) :
    Except String HttpResponse :=
  match body with
  | none => Except.ok ⟨400, JsonBody.err "JSON body must include a symbols list"⟩
  | some d =>
    if d.isEmpty then
      Except.ok ⟨400, JsonBody.err "JSON body must include a symbols list"⟩
    else
      match dict_get d "symbols" with
      | none => Except.ok ⟨400, JsonBody.err "JSON body must include a symbols list"⟩
      | some v =>
        match process_symbols_runtime provider (normalize_symbols_post v) 100 with
        | Except.error e => Except.error e
        | Except.ok results => Except.ok ⟨200, JsonBody.quotes results.length results⟩

/-- Upstream lookups performed by one `fetch_stock_data(symbol)` call:
exactly one — `yf.Ticker(symbol)` / `ticker.info` (src/app.py:14-15).
The sector and industry values are read from that same per-call response
(lines 53-54); the module defines no cache of any kind, so nothing is
memoized between calls. -/
def fetch_upstream_lookups (symbol : Symbol) : List Symbol := [symbol]

/-- Upstream lookups performed while serving one request for `symbols`:
the comprehension on line 70 calls `fetch_stock_data` once per element,
in order, and batching only regroups those calls.  For a request of more
than `batch_size = 100` symbols the real process aborts at the first
batch's `gather` before later batches fetch, so this trace is
runtime-exact for single-batch requests (≤ 100 symbols) — the scope the
C3 statements exercise — and otherwise upper-bounds the request's
lookups (in the direction opposite to any caching effect). -/
def request_upstream_lookups : List Symbol → List Symbol
  | [] => []
  | s :: rest => fetch_upstream_lookups s ++ request_upstream_lookups rest

/-- Upstream lookups across a sequence of requests served one after the
other.  src/app.py keeps no state between requests (no module-level cache
variable exists), so each request contributes its own full lookup list. -/
def requests_upstream_lookups : List (List Symbol) → List Symbol
  | [] => []
  | r :: rest => request_upstream_lookups r ++ requests_upstream_lookups rest

/-- Start/end events of upstream fetch calls, for the in-flight bound. -/
inductive FetchEvent where
  | callStart (s : Symbol)
  | callEnd (s : Symbol)
deriving DecidableEq

/-- Whether an event is a call start. -/
def is_call_start : FetchEvent → Bool
  | FetchEvent.callStart _ => true
  | FetchEvent.callEnd _ => false

/-- Event trace of the upstream calls made while serving one request:
`fetch_stock_data` is a plain synchronous function, and the comprehension
`[fetch_stock_data(s) for s in batch]` (src/app.py:70) evaluates its calls
strictly one after another — each call returns before the next begins —
and the batch loop (lines 68-72) runs the batches in order.  So the trace
is a strictly alternating start/end sequence.  When the `gather`
`TypeError` aborts the request after the first batch, the real trace is a
prefix of this one, so a bound proved over every prefix covers the real
execution. -/
def fetch_call_trace : List Symbol → List FetchEvent
  | [] => []
  | s :: rest => FetchEvent.callStart s :: FetchEvent.callEnd s :: fetch_call_trace rest

/-- Number of upstream calls in flight after a prefix of the event trace:
starts seen minus ends seen. -/
def in_flight (es : List FetchEvent) : ℕ :=
  es.countP (fun e => is_call_start e) - es.countP (fun e => !is_call_start e)

/-- A provider whose every lookup raises (upstream host unreachable). -/
def provider_down : Provider := fun _ => Except.error "HTTP Error 404: Not Found"

/-- A field bag with no price under either price key. -/
def info_no_price : Info := { volume := some 5 }

/-- A provider that always answers with `info_no_price`. -/
def provider_no_price : Provider := fun _ => Except.ok info_no_price

/-- A healthy field bag (prices, volumes, name all present). -/
def info_ok : Info :=
  { currentPrice := some 123
    previousClose := some 120
    volume := some 1000
    averageDailyVolume10Day := some 500
    longName := some "Apple Inc" }

/-- A provider that always answers with `info_ok`. -/
def provider_ok : Provider := fun _ => Except.ok info_ok

/-- Field bag with a present-but-zero primary volume and a non-zero
secondary volume. -/
def info_zero_volume : Info :=
  { currentPrice := some 10
    volume := some 0
    regularMarketVolume := some 7 }

/-- A provider that always answers with `info_zero_volume`. -/
def provider_zero_volume : Provider := fun _ => Except.ok info_zero_volume

/-- Field bag with zero traded volume but a present, non-zero average
volume (a legitimate pre-market state). -/
def info_zero_traded : Info :=
  { currentPrice := some 110
    previousClose := some 100
    volume := some 0
    averageDailyVolume10Day := some 1000 }

/-- A provider that always answers with `info_zero_traded`. -/
def provider_zero_traded : Provider := fun _ => Except.ok info_zero_traded

/-- Field bag realising the spec example price=110, previousClose=100,
plus volume=3000 over average volume 2000. -/
def info_example : Info :=
  { currentPrice := some 110
    previousClose := some 100
    volume := some 3000
    averageDailyVolume10Day := some 2000 }

/-- A provider that always answers with `info_example`. -/
def provider_example : Provider := fun _ => Except.ok info_example

/-! ### Helper lemmas -/

/-- Concatenating the `range`-indexed `bs`-sized chunks of a mapped list
reassembles the mapped list, as soon as `n * bs` covers its length
(trailing chunks beyond the length are empty). -/
theorem range_chunks_map {α β : Type} (f : α → β) (bs : ℕ) :
    ∀ (n : ℕ) (xs : List α), xs.length ≤ n * bs →
      ((List.range n).map (fun j => ((xs.drop (j * bs)).take bs).map f)).flatten
        = xs.map f := by
  intro n
  induction n with
  | zero =>
    intro xs h
    simp only [Nat.zero_mul, Nat.le_zero, List.length_eq_zero] at h
    simp [h]
  | succ n ih =>
    intro xs h
    rw [List.range_succ_eq_map]
    simp only [List.map_cons, List.map_map, List.flatten_cons, Nat.zero_mul,
      List.drop_zero]
    have hcomp :
        ((List.range n).map ((fun j => ((xs.drop (j * bs)).take bs).map f) ∘ Nat.succ))
          = (List.range n).map (fun j => (((xs.drop bs).drop (j * bs)).take bs).map f) := by
      apply List.map_congr_left
      intro j _
      simp only [Function.comp]
      rw [List.drop_drop]
      have he : Nat.succ j * bs = bs + j * bs := by
        rw [Nat.succ_mul, Nat.add_comm]
      rw [he]
    rw [Nat.add_mul, Nat.one_mul] at h
    rw [hcomp, ih (xs.drop bs) (by simp only [List.length_drop]; omega)]
    rw [← List.map_append, List.take_append_drop]

/-- `py_range_count len bs * bs` covers `len` whenever `bs ≥ 1`. -/
theorem length_le_range_count_mul (len bs : ℕ) (h : 1 ≤ bs) :
    len ≤ py_range_count len bs * bs := by
  unfold py_range_count
  rcases Nat.eq_zero_or_pos len with h0 | h0
  · simp [h0]
  · obtain ⟨m, rfl⟩ : ∃ m, len = m + 1 := ⟨len - 1, by omega⟩
    have hbs : 0 < bs := h
    have hstep : (m + 1 + bs - 1) / bs = m / bs + 1 := by
      have : m + 1 + bs - 1 = m + bs := by omega
      rw [this, Nat.add_div_right m hbs]
    rw [hstep, Nat.add_mul, Nat.one_mul]
    have hdm := Nat.div_add_mod' m bs
    have hlt : m % bs < bs := Nat.mod_lt m hbs
    omega

/-- At the call sites (`batch_size = 100`), `process_symbols` is exactly
the in-order map of `fetch_stock_data` over the input. -/
theorem process_symbols_eq_map (provider : Provider) (symbols : List Symbol)
    (bs : ℕ) (h : 1 ≤ bs) :
    process_symbols provider symbols bs = symbols.map (fetch_stock_data provider) := by
  unfold process_symbols
  exact range_chunks_map (fetch_stock_data provider) bs _ symbols
    (length_le_range_count_mul symbols.length bs h)

/-- Once an iteration of the runtime loop has raised, every later
iteration merely propagates the exception. -/
theorem foldl_gather_step_error (provider : Provider) (symbols : List Symbol)
    (bs : ℕ) (e : String) (l : List ℕ) :
    l.foldl (gather_step provider symbols bs) (Except.error e) = Except.error e := by
  induction l with
  | nil => rfl
  | cons j t ih =>
    rw [List.foldl_cons]
    exact ih

/-- For every non-empty symbol list the real `process_symbols` raises the
`gather` `TypeError`: the first batch's `tasks` are non-empty values, so
`asyncio_gather`'s argument check fails on iteration 0 and the exception
propagates through the remaining iterations. -/
theorem process_symbols_runtime_nonempty (provider : Provider)
    (symbols : List Symbol) (h : symbols ≠ []) :
    process_symbols_runtime provider symbols 100
      = Except.error gather_type_error_msg := by
  obtain ⟨s, rest, rfl⟩ := List.exists_cons_of_ne_nil h
  have hpos : 0 < py_range_count (s :: rest).length 100 := by
    unfold py_range_count
    apply Nat.div_pos
    · simp only [List.length_cons]
      omega
    · omega
  obtain ⟨k, hk⟩ : ∃ k, py_range_count (s :: rest).length 100 = k + 1 :=
    ⟨py_range_count (s :: rest).length 100 - 1, by omega⟩
  unfold process_symbols_runtime
  rw [hk, List.range_succ_eq_map, List.foldl_cons]
  have h0 : gather_step provider (s :: rest) 100 (Except.ok []) 0
      = Except.error gather_type_error_msg := by
    have ht : batch_tasks provider (s :: rest) 100 0
        = fetch_stock_data provider s :: (rest.take 99).map (fetch_stock_data provider) := rfl
    simp [gather_step, ht, asyncio_gather]
  rw [h0]
  exact foldl_gather_step_error provider (s :: rest) 100 gather_type_error_msg _

/-- One request performs exactly one upstream lookup per input position. -/
theorem request_upstream_lookups_eq (symbols : List Symbol) :
    request_upstream_lookups symbols = symbols := by
  induction symbols with
  | nil => rfl
  | cons s rest ih => simp [request_upstream_lookups, fetch_upstream_lookups, ih]

/-- A truthy optional number is not `some 0`. -/
theorem pyTruthyQ_ne_zero {a : Option ℚ} (h : pyTruthyQ a = true) :
    (a == some 0) = false := by
  cases a with
  | none => simp [pyTruthyQ] at h
  | some q =>
    have hq : q ≠ 0 := by simpa [pyTruthyQ] using h
    simp [hq]

/-! ### Claims -/

/-- Claim C1 (code bug): the claim states the intended collection — one
outcome per input symbol, in input order, duplicates independently
fetched — and indeed the intended aggregation (second conjunct, the
value-level reading of lines 67-73) is exactly the in-order map of
`fetch_stock_data`.  But the real `process_symbols` never returns a batch
result for any non-empty input: the synchronous fetch results are handed
to `asyncio.gather`, whose argument check raises `TypeError` (first
conjunct), so the claimed data sequence is never exhibited at runtime. -/
theorem claim_C1 (provider : Provider) (symbols : List Symbol)
    (hne : symbols ≠ []) :
    process_symbols_runtime provider symbols 100
        = Except.error gather_type_error_msg
    ∧ process_symbols provider symbols 100 = symbols.map (fetch_stock_data provider) :=
  ⟨process_symbols_runtime_nonempty provider symbols hne,
   process_symbols_eq_map provider symbols 100 (by omega)⟩

/-- Witness for C1 at the concrete duplicated input `["AAPL", "AAPL"]`:
the runtime call raises while the intended collection would have one
outcome per occurrence. -/
theorem claim_C1_witness :
    process_symbols_runtime provider_down ["AAPL", "AAPL"] 100
        = Except.error gather_type_error_msg
    ∧ process_symbols provider_down ["AAPL", "AAPL"] 100
        = ["AAPL", "AAPL"].map (fetch_stock_data provider_down) :=
  claim_C1 provider_down ["AAPL", "AAPL"] (by decide)

/-- Claim C2 (code bug): the claim — a 200 response whose `count` equals
the number of successful outcomes only — is contradicted twice by the
code at the well-formed request `POST /quote {"symbols": ["AAPL"]}`
against an all-failing provider.  At runtime the handler propagates the
`gather` `TypeError` (first conjunct), so no 200 response and no `count`
are produced at all; and even the intended serialisation (second
conjunct, the value-level reading) sets `count = len(results) = 1` while
`data = [None]` contains zero successful `QuoteRecord` outcomes (third
conjunct), so the crash-free reading also counts failures rather than
excluding them. -/
theorem claim_C2_code_bug :
    quote_post_runtime provider_down (some [("symbols", PyVal.list [PyVal.str "AAPL"])])
        = Except.error gather_type_error_msg
    ∧ quote_post provider_down (some [("symbols", PyVal.list [PyVal.str "AAPL"])])
        = ⟨200, JsonBody.quotes 1 [none]⟩
    ∧ ([(none : Option QuoteRecord)].countP (fun o => o.isSome)) = 0 := by
  exact ⟨rfl, by decide, by decide⟩

/-- Claim C3, counterexample: the code keeps no classification cache, so a
second request for `"AAPL"` issued after the first completed performs one
further upstream lookup (not zero): two sequential requests perform two
lookups in total. -/
theorem claim_C3_counterexample :
    request_upstream_lookups ["AAPL"] = ["AAPL"]
    ∧ requests_upstream_lookups [["AAPL"], ["AAPL"]] = ["AAPL", "AAPL"] := by
  exact ⟨by decide, by decide⟩

/-- Claim C3 as amended: sector/industry classification is not memoized
at all — there is no cache and no single-flight coordination.  Every
`fetch_stock_data` call performs its own upstream `ticker.info` lookup
(from which sector/industry are read), so across any sequence of requests
the number of upstream lookups that touch a symbol equals the total
number of occurrences of that symbol in those requests; N requests for
the same symbol cost N lookups, and a repeat request costs one more
lookup, never zero. -/
theorem claim_C3_amended (reqs : List (List Symbol)) (s : Symbol) :
    (requests_upstream_lookups reqs).count s
      = ((reqs.map (fun r => r.count s)).sum)
    ∧ (requests_upstream_lookups reqs).length = (reqs.map List.length).sum := by
  induction reqs with
  | nil => exact ⟨rfl, rfl⟩
  | cons r rest ih =>
    constructor
    · simp only [requests_upstream_lookups, List.count_append, List.map_cons,
        List.sum_cons, request_upstream_lookups_eq, ih.1]
    · simp only [requests_upstream_lookups, List.length_append, List.map_cons,
        List.sum_cons, request_upstream_lookups_eq, ih.2]

/-- Claim C4, counterexample: a failed fetch yields the bare value `None`.
Two different symbols that fail for different reasons (a raising provider
for `"AAPL"`, a missing price for `"NOPX"`) produce the *identical*
outcome `none`, so the outcome cannot carry the failed symbol or any
failure reason such as `NoPriceData`, contradicting the claim. -/
theorem claim_C4_counterexample :
    fetch_stock_data provider_down "AAPL" = none
    ∧ fetch_stock_data provider_no_price "NOPX" = none
    ∧ fetch_stock_data provider_down "AAPL" = fetch_stock_data provider_no_price "NOPX"
    ∧ process_symbols provider_down ["AAPL"] 100 = [none] := by
  exact ⟨by decide, by decide, by decide, by decide⟩

/-- Claim C4 as amended: for every symbol whose fetch fails — the provider
raises, or no truthy price is available under either price key — the
corresponding entry in `data` is `None` (JSON `null`).  It is
distinguishable from every success entry (`null` vs. a quote object) and
is never omitted, but it is not error-tagged: it carries neither the
symbol nor a failure reason. -/
theorem claim_C4_amended (provider : Provider) (s : Symbol) :
    (∀ e, provider s = Except.error e → fetch_stock_data provider s = none)
    ∧ (∀ info, provider s = Except.ok info →
        pyTruthyQ (pyOrQ info.currentPrice info.regularMarketPrice) = false →
        fetch_stock_data provider s = none)
    ∧ (∀ r : QuoteRecord, (none : Option QuoteRecord) ≠ some r) := by
  refine ⟨?_, ?_, fun r h => Option.noConfusion h⟩
  · intro e he
    rw [fetch_stock_data, he]
  · intro info hok hp
    rw [fetch_stock_data, hok]
    simp [hp]

/-- Witness for C4 as amended at the concrete failing symbol `"GOOG"`. -/
theorem claim_C4_witness :
    fetch_stock_data provider_down "GOOG" = none :=
  (claim_C4_amended provider_down "GOOG").1 "HTTP Error 404: Not Found" rfl

/-- Claim C5, counterexample: a GET whose `symbols` value is only
whitespace and commas, and a POST with `{"symbols": []}`, both normalize
to no resolvable symbols, yet neither receives a request-level 400: both
are answered 200 with `count = 0` and empty `data`. -/
theorem claim_C5_counterexample :
    quote_get provider_down " , ," = ⟨200, JsonBody.quotes 0 []⟩
    ∧ quote_post provider_down (some [("symbols", PyVal.list [])])
        = ⟨200, JsonBody.quotes 0 []⟩ := by
  exact ⟨by decide, by decide⟩

/-- Claim C5 as amended: the request-level 400 is issued before any
fetch, but it only tests the raw inputs — `GET /quote` returns 400
exactly when the raw `symbols` parameter is missing/empty-string, and
`POST /quote` returns 400 exactly when the JSON body is missing, an empty
object, or lacks the `"symbols"` key.  A request whose symbols normalize
to the empty list (whitespace/comma-only parameter, or
`{"symbols": []}`) is *not* rejected: it is answered 200 with `count = 0`
and empty `data` (vacuously, no fetch occurs). -/
theorem claim_C5_amended (provider : Provider) :
    (∀ p, (quote_get provider p).status_code = 400 ↔ p = "")
    ∧ (quote_post provider none).status_code = 400
    ∧ (∀ d : PyDict, (quote_post provider (some d)).status_code = 400
        ↔ (d = [] ∨ dict_get d "symbols" = none))
    ∧ (∀ p, p ≠ "" → normalize_symbols_get p = [] →
        quote_get provider p = ⟨200, JsonBody.quotes 0 []⟩)
    ∧ (∀ (d : PyDict) (v : PyVal), d ≠ [] → dict_get d "symbols" = some v →
        normalize_symbols_post v = [] →
        quote_post provider (some d) = ⟨200, JsonBody.quotes 0 []⟩) := by
  refine ⟨?_, rfl, ?_, ?_, ?_⟩
  · intro p
    rw [quote_get]
    by_cases hp : p = ""
    · simp [hp]
    · have hb : (p == "") = false := by simp [hp]
      simp [hb, hp]
  · intro d
    rw [quote_post]
    cases d with
    | nil => simp
    | cons a l =>
      simp only [List.isEmpty_cons, Bool.false_eq_true, if_false]
      cases hv : dict_get (a :: l) "symbols" with
      | none => simp
      | some v => simp [hv]
  · intro p hp hn
    have hb : (p == "") = false := by simp [hp]
    rw [quote_get, hb]
    simp [hn, process_symbols, py_range_count]
  · intro d v hd hv hn
    have hde : d.isEmpty = false := by
      cases d with
      | nil => exact absurd rfl hd
      | cons a l => rfl
    rw [quote_post]
    simp [hde, hv, hn, process_symbols, py_range_count]

/-- Witness for C5 as amended at concrete no-resolvable-symbol inputs. -/
theorem claim_C5_witness :
    quote_get provider_down "  ,  ,," = ⟨200, JsonBody.quotes 0 []⟩ := by
  exact (claim_C5_amended provider_down).2.2.2.1 "  ,  ,," (by simp) (by decide)

/-- Claim C6, counterexample: with `volume = 0` present (and non-null)
and `regularMarketVolume = 7`, the record's volume is `7`: the `or`-based
fallback skips a present-but-zero primary field, contradicting the claim
that the primary is chosen "including when its value is zero" and that a
legitimate zero is representable distinctly from an absent value. -/
theorem claim_C6_counterexample :
    (fetch_stock_data provider_zero_volume "AAPL").map (fun r => r.volume)
      = some (some 7)
    ∧ info_zero_volume.volume = some 0 := by
  exact ⟨by decide, by decide⟩

/-- Claim C6 as amended: for each primary/secondary pair the chosen value
is the primary field when it is *truthy* — present, non-null and non-zero
(non-empty for strings) — and otherwise the secondary field's value
as-is; a present-but-zero primary falls through to the secondary exactly
as an absent one does, so zero is not distinguished from absence by the
selection.  (The previousClose pair is exercised through
`change_percent`: when neither previous-close key is truthy the derived
field is absent.) -/
theorem claim_C6_amended (provider : Provider) (s : Symbol) (info : Info)
    (hok : provider s = Except.ok info)
    (hp : pyTruthyQ (pyOrQ info.currentPrice info.regularMarketPrice) = true) :
    ∃ r, fetch_stock_data provider s = some r
      ∧ r.price = (if pyTruthyQ info.currentPrice then info.currentPrice
          else info.regularMarketPrice)
      ∧ r.name = (if pyTruthyS info.longName then info.longName else info.shortName)
      ∧ r.volume = (if pyTruthyQ info.volume then info.volume
          else info.regularMarketVolume)
      ∧ r.open_ = (if pyTruthyQ info.open_ then info.open_
          else info.regularMarketOpen)
      ∧ r.high = (if pyTruthyQ info.dayHigh then info.dayHigh
          else info.regularMarketDayHigh)
      ∧ r.low = (if pyTruthyQ info.dayLow then info.dayLow
          else info.regularMarketDayLow)
      ∧ (pyTruthyQ (pyOrQ info.previousClose info.regularMarketPreviousClose) = false →
          r.change_percent = none) := by
  rw [fetch_stock_data, hok]
  simp only [hp, Bool.not_true, Bool.false_eq_true, if_false]
  refine ⟨_, rfl, rfl, rfl, rfl, rfl, rfl, rfl, ?_⟩
  intro hpc
  simp [hpc]

/-- Witness for C6 as amended: at `info_zero_volume` the fetch succeeds
and the selected volume is the (truthy-selected) secondary field. -/
theorem claim_C6_witness :
    (fetch_stock_data provider_zero_volume "MSFT").isSome = true := by
  obtain ⟨r, hr, -⟩ := claim_C6_amended provider_zero_volume "MSFT"
    info_zero_volume rfl (by decide)
  rw [hr]
  rfl

/-- Claim C7, counterexample: with traded `volume = 0` present and
`averageDailyVolume10Day = 1000` present and non-zero, the claim requires
`relative_volume` to be present (0 / 1000 = 0.0), but the code leaves it
absent because its guard also requires the numerator `volume` to be
truthy.  (`change_percent` behaves as claimed: 110 vs 100 gives 10.) -/
theorem claim_C7_counterexample :
    (fetch_stock_data provider_zero_traded "AAPL").map
        (fun r => (r.change_percent, r.relative_volume, r.avg_volume))
      = some (some 10, none, some 1000) := by
  simp [fetch_stock_data, provider_zero_traded, info_zero_traded, pyOrQ, pyTruthyQ,
    pyOrS, pyTruthyS, pyRound, roundHalfEven]
  norm_num

/-- Claim C7 as amended: with a truthy price, `change_percent` is present
iff the merged previous close is truthy (present and non-zero), in which
case it equals `round(((price − previousClose) / previousClose) × 100, 4)`
(half-to-even); but `relative_volume` is present iff *both* the merged
volume and the average volume are truthy — a zero or missing volume also
suppresses it, not only a zero/missing denominator — in which case it
equals `round(volume / averageVolume, 2)`.  A zero or missing denominator
yields an absent field, with no division error. -/
theorem claim_C7_amended (provider : Provider) (s : Symbol) (info : Info)
    (hok : provider s = Except.ok info)
    (hp : pyTruthyQ (pyOrQ info.currentPrice info.regularMarketPrice) = true) :
    ∃ r, fetch_stock_data provider s = some r
      ∧ (r.change_percent = none
          ↔ pyTruthyQ (pyOrQ info.previousClose info.regularMarketPreviousClose) = false)
      ∧ (∀ pc, pyOrQ info.previousClose info.regularMarketPreviousClose = some pc →
          pc ≠ 0 →
          r.change_percent = some (pyRound
            (((pyOrQ info.currentPrice info.regularMarketPrice).getD 0 - pc) / pc * 100) 4))
      ∧ (r.relative_volume = none
          ↔ (pyTruthyQ (pyOrQ info.volume info.regularMarketVolume) = false
              ∨ pyTruthyQ info.averageDailyVolume10Day = false))
      ∧ (∀ v av, pyOrQ info.volume info.regularMarketVolume = some v → v ≠ 0 →
          info.averageDailyVolume10Day = some av → av ≠ 0 →
          r.relative_volume = some (pyRound (v / av) 2)) := by
  rw [fetch_stock_data, hok]
  simp only [hp, Bool.not_true, Bool.false_eq_true, if_false]
  refine ⟨_, rfl, ?_, ?_, ?_, ?_⟩
  · cases hpc : pyTruthyQ (pyOrQ info.previousClose info.regularMarketPreviousClose) with
    | false => simp [hpc]
    | true => simp [hp, hpc, pyTruthyQ_ne_zero hpc]
  · intro pc hpc hne
    simp [hp, hpc, pyTruthyQ, hne]
  · cases hv : pyTruthyQ (pyOrQ info.volume info.regularMarketVolume) with
    | false => simp [hv]
    | true =>
      cases ha : pyTruthyQ info.averageDailyVolume10Day with
      | false => simp [hv, ha]
      | true => simp [hv, ha, pyTruthyQ_ne_zero ha]
  · intro v av hvv hvne hav havne
    simp [hp, hvv, hav, pyTruthyQ, hvne, havne]

/-- Witness for C7 as amended at the spec example (price 110, previous
close 100, volume 3000, average volume 2000): the fetch succeeds, the
derived fields are present, and `change_percent` carries the rounded
formula value. -/
theorem claim_C7_witness :
    (fetch_stock_data provider_example "AAPL").map (fun r => r.change_percent)
      = some (some (pyRound (((110 : ℚ) - 100) / 100 * 100) 4)) := by
  obtain ⟨r, hr, -, hcp, -, -⟩ := claim_C7_amended provider_example "AAPL"
    info_example rfl (by decide)
  have hgd : (pyOrQ info_example.currentPrice info_example.regularMarketPrice).getD 0
      = (110 : ℚ) := by decide
  have h := hcp 100 (by decide) (by decide)
  rw [hgd] at h
  rw [hr]
  simp [h]

/-- Claim C8: the per-symbol conversion of provider failures to values
does exist (`fetch_stock_data` catches every exception and returns
`None`), but the orchestrator itself raises: `process_symbols` hands the
already-computed results of the synchronous `fetch_stock_data` to
`asyncio.gather`, whose argument check raises `TypeError` for any
non-empty batch.  Even with a perfectly healthy provider — the fetch for
`"AAPL"` succeeds — the batch for `["AAPL"]` ends in the `TypeError`, so
the request cannot produce the claimed 200-with-outcomes response. -/
theorem claim_C8_runtime_type_error :
    process_symbols_runtime provider_ok ["AAPL"] 100
      = Except.error gather_type_error_msg
    ∧ (fetch_stock_data provider_ok "AAPL").isSome = true
    ∧ fetch_stock_data provider_down "AAPL" = none := by
  exact ⟨rfl, by decide, by decide⟩

/-- Claim C9: at most one (hence at most any configured bound C ≥ 1)
upstream fetch is in flight at any instant.  `fetch_stock_data` is a
plain synchronous function and the comprehension on src/app.py:70 calls
it strictly sequentially, so after every prefix of the request's
call-event trace the number of open calls is at most 1; fan-out is
bounded regardless of the input length. -/
theorem claim_C9 (symbols : List Symbol) (k : ℕ) :
    in_flight ((fetch_call_trace symbols).take k) ≤ 1 := by
  induction symbols generalizing k with
  | nil => simp [fetch_call_trace, in_flight]
  | cons s rest ih =>
    cases k with
    | zero => simp [in_flight]
    | succ k =>
      cases k with
      | zero =>
        simp [fetch_call_trace, in_flight, is_call_start, List.countP_cons]
      | succ k =>
        have h := ih k
        simp only [fetch_call_trace, List.take_succ_cons, in_flight,
          List.countP_cons, is_call_start, Bool.not_true, Bool.not_false] at h ⊢
        omega

/-- Stripping a one-character string yields the empty string for a
whitespace character and the string itself otherwise. -/
theorem pyStrip_single (c : Char) :
    pyStrip (String.mk [c]) = if is_py_space c then "" else String.mk [c] := by
  by_cases h : is_py_space c
  · simp [pyStrip, List.dropWhile, h]
  · simp [pyStrip, List.dropWhile, h]

/-- A one-character string is never the empty string. -/
theorem single_ne_empty (c : Char) : String.mk [c] ≠ "" := by
  have h0 : ("" : String) = String.mk [] := rfl
  rw [h0]
  intro hh
  injection hh with h2
  exact List.noConfusion h2

/-- Character-level reading of the POST normalization applied to the
1-character strings obtained by iterating a Python string: blank
characters are dropped, the rest are uppercased. -/
theorem post_normalize_chars (l : List Char) :
    (l.map (fun c => PyVal.str (String.mk [c]))).filterMap post_step
      = (l.filter (fun c => !is_py_space c)).map (fun c => pyUpper (String.mk [c])) := by
  induction l with
  | nil => rfl
  | cons c l ih =>
    by_cases h : is_py_space c
    · have hstep : post_step (PyVal.str (String.mk [c])) = none := by
        simp [post_step, pyStrip_single, h]
      simp only [List.map_cons, List.filterMap_cons, hstep, List.filter_cons, h,
        Bool.not_true, Bool.false_eq_true, if_false, ih]
    · have hstep : post_step (PyVal.str (String.mk [c]))
          = some (pyUpper (String.mk [c])) := by
        simp [post_step, pyStrip_single, h, single_ne_empty]
      simp only [List.map_cons, List.filterMap_cons, hstep, List.filter_cons, h,
        Bool.not_false, if_true, ih]

/-- Claim C10: a POST body whose `"symbols"` value is a plain string,
e.g. `{"symbols": "AAPL"}`, is not rejected — the 400 guard only checks
that the key exists, so the runtime handler never returns a 400 for it
(first conjunct) — and the comprehension then iterates the string
character by character, so each non-blank character is stripped and
uppercased into an individual symbol (second conjunct), and the first
batch's comprehension eagerly calls `fetch_stock_data` once per such
character symbol — all of them when at most 100 — before `gather` is
invoked (third conjunct).  The full runtime outcome (fourth conjunct):
200 with `count 0` and empty `data` when every character is blank, else
the `gather` `TypeError` escapes after those per-character fetches. -/
theorem claim_C10 (provider : Provider) (s : String) :
    (∀ r : HttpResponse,
        quote_post_runtime provider (some [("symbols", PyVal.str s)]) = Except.ok r →
        r.status_code ≠ 400)
    ∧ normalize_symbols_post (PyVal.str s)
        = (s.data.filter (fun c => !is_py_space c)).map (fun c => pyUpper (String.mk [c]))
    ∧ batch_tasks provider (normalize_symbols_post (PyVal.str s)) 100 0
        = ((normalize_symbols_post (PyVal.str s)).take 100).map (fetch_stock_data provider)
    ∧ quote_post_runtime provider (some [("symbols", PyVal.str s)])
        = (if normalize_symbols_post (PyVal.str s) = [] then
            Except.ok ⟨200, JsonBody.quotes 0 []⟩
          else Except.error gather_type_error_msg) := by
  have hv : dict_get [("symbols", PyVal.str s)] "symbols" = some (PyVal.str s) := rfl
  have h4 : quote_post_runtime provider (some [("symbols", PyVal.str s)])
      = (if normalize_symbols_post (PyVal.str s) = [] then
          Except.ok ⟨200, JsonBody.quotes 0 []⟩
        else Except.error gather_type_error_msg) := by
    by_cases hn : normalize_symbols_post (PyVal.str s) = []
    · rw [if_pos hn]
      unfold quote_post_runtime
      simp only [List.isEmpty_cons, Bool.false_eq_true, if_false, hv, hn]
      rfl
    · rw [if_neg hn]
      unfold quote_post_runtime
      simp only [List.isEmpty_cons, Bool.false_eq_true, if_false, hv,
        process_symbols_runtime_nonempty provider _ hn]
  refine ⟨?_, ?_, ?_, h4⟩
  · intro r hr
    rw [h4] at hr
    by_cases hn : normalize_symbols_post (PyVal.str s) = []
    · rw [if_pos hn] at hr
      injection hr with h2
      rw [← h2]
      decide
    · rw [if_neg hn] at hr
      exact Except.noConfusion hr
  · rw [normalize_symbols_post, pyIter]
    exact post_normalize_chars s.data
  · simp [batch_tasks]

/-- Witness for C10 at the claim's own example `{"symbols": "AAPL"}`:
the value is split into the four character symbols A, A, P, L (not
rejected), and the request then ends in the `gather` `TypeError`. -/
theorem claim_C10_witness :
    normalize_symbols_post (PyVal.str "AAPL") = ["A", "A", "P", "L"]
    ∧ quote_post_runtime provider_down (some [("symbols", PyVal.str "AAPL")])
        = Except.error gather_type_error_msg := by
  have h := claim_C10 provider_down "AAPL"
  constructor
  · exact h.2.1.trans (by decide)
  · have hn : normalize_symbols_post (PyVal.str "AAPL") ≠ [] := by decide
    exact h.2.2.2.trans (if_neg hn)

end StockApi
